import Mathlib

set_option linter.unusedVariables false
set_option linter.unreachableTactic false
set_option linter.unusedTactic false
set_option linter.unnecessarySeqFocus false

/-!
Verification development for the belle2 versioning module (versioning.py).

The Python source is shallowly embedded: strings are `String`, Python lists
are `List`, dictionaries with possibly missing keys become structures with
`Option` fields, and code that can raise (`KeyError` from a dict lookup,
`TypeError` from a mixed-type `LooseVersion` comparison under Python 3)
returns `Except PyErr`.
-/

/-- Python exceptions that the embedded code can raise. -/
inductive PyErr where
  | typeError
  | keyError
deriving DecidableEq

/-- The static list of supported full releases (versioning.py lines 16-19);
the last one is the recommended one. -/
def _supported_releases : List String :=
  ["release-04-02-09", "release-05-01-16", "release-05-02-00"]

/-- The static list of supported light releases (versioning.py lines 22-24). -/
def _supported_light_releases : List String :=
  ["light-2012-minos", "light-2102-nemesis", "light-2103-oceanos"]

/-- A parsed component of a `distutils.version.LooseVersion`: either an
integer (a run of digits) or a string chunk. -/
abbrev LComp := Nat ⊕ List Char

/-- Python regex class `\d` restricted to ASCII, as used by
`LooseVersion.component_re`. -/
def isPyDigit (c : Char) : Bool := '0' ≤ c && c ≤ '9'

/-- Python regex class `[a-z]` as used by `LooseVersion.component_re`. -/
def isPyLower (c : Char) : Bool := 'a' ≤ c && c ≤ 'z'

/-- Characters matched by none of the alternatives of
`LooseVersion.component_re`; maximal runs of these form the non-matching
chunks that `re.split` keeps as components. -/
def isPyOther (c : Char) : Bool := !(isPyDigit c || isPyLower c || c == '.')

/-- Python `int()` on a run of ASCII digits. -/
def natOfDigits (cs : List Char) : Nat :=
  cs.foldl (fun n c => n * 10 + (c.toNat - 48)) 0

/-- Recursion worker for `looseSplit`, structural on a fuel argument so that
it reduces inside the kernel; the fuel is always at least the length of the
character list, so the `0, _ :: _` arm is never reached from `looseSplit`. -/
def looseSplitF (fuel : Nat) (cs : List Char) : List LComp :=
  match fuel, cs with
  | _, [] => []
  | 0, _ :: _ => []
  | fuel + 1, c :: rest =>
    if isPyDigit c then
      Sum.inl (natOfDigits (c :: rest.takeWhile isPyDigit)) ::
        looseSplitF fuel (rest.dropWhile isPyDigit)
    else if isPyLower c then
      Sum.inr (c :: rest.takeWhile isPyLower) :: looseSplitF fuel (rest.dropWhile isPyLower)
    else if c == '.' then
      looseSplitF fuel rest
    else
      Sum.inr (c :: rest.takeWhile isPyOther) :: looseSplitF fuel (rest.dropWhile isPyOther)

/-- `LooseVersion.parse`: split the version string on the regex
`(\d+ | [a-z]+ | \.)`, keep the non-empty components other than `"."`,
and convert the digit runs to integers. -/
def looseSplit (cs : List Char) : List LComp := looseSplitF cs.length cs

/-- Python `==` on two version components; comparing an `int` with a `str`
yields `False` without raising. -/
def pyCompEq : LComp → LComp → Bool
  | Sum.inl a, Sum.inl b => a == b
  | Sum.inr a, Sum.inr b => a == b
  | _, _ => false

/-- Python `<` on two strings: lexicographic comparison by code point. -/
def charListLt : List Char → List Char → Bool
  | [], [] => false
  | [], _ :: _ => true
  | _ :: _, [] => false
  | a :: as, b :: bs => if a = b then charListLt as bs else decide (a < b)

/-- Python `<` on two version components; under Python 3 comparing an `int`
with a `str` raises `TypeError`. -/
def pyCompLt : LComp → LComp → Except PyErr Bool
  | Sum.inl a, Sum.inl b => .ok (decide (a < b))
  | Sum.inr a, Sum.inr b => .ok (charListLt a b)
  | _, _ => .error .typeError

/-- Python `==` on two lists of version components (never raises). -/
def pyListEq : List LComp → List LComp → Bool
  | [], [] => true
  | a :: as, b :: bs => pyCompEq a b && pyListEq as bs
  | _, _ => false

/-- Python `<` on two lists of version components: elementwise, deciding at
the first non-equal pair (which may raise `TypeError` on mixed types);
a strict prefix is smaller. -/
def pyListLt : List LComp → List LComp → Except PyErr Bool
  | [], [] => .ok false
  | [], _ :: _ => .ok true
  | _ :: _, [] => .ok false
  | a :: as, b :: bs => if pyCompEq a b then pyListLt as bs else pyCompLt a b

/-- `LooseVersion.__le__` via `Version._cmp`: equality is checked first
(safe), then the possibly-raising `<`. -/
def looseLe (a b : List LComp) : Except PyErr Bool :=
  if pyListEq a b then .ok true else pyListLt a b

/-- Python `str.split` with a single-character separator. -/
def splitChar (sep : Char) : List Char → List (List Char)
  | [] => [[]]
  | c :: rest =>
    let r := splitChar sep rest
    if c = sep then [] :: r
    else
      match r with
      | [] => [[c]]
      | h :: t => (c :: h) :: t

/-- Python `'.'.join`. -/
def joinDots : List (List Char) → List Char
  | [] => []
  | [x] => x
  | x :: y :: xs => x ++ '.' :: joinDots (y :: xs)

/-- The local helper `basf2_version` of `supported_release` (versioning.py
lines 43-44): `LooseVersion('.'.join(release.split('-')[1:]))`. -/
def basf2_version (release : String) : List LComp :=
  looseSplit (joinDots ((splitChar '-' release.data).drop 1))

/-- Python `str.startswith` on character lists. -/
def startsWithL : List Char → List Char → Bool
  | _, [] => true
  | [], _ :: _ => false
  | c :: cs, p :: ps => c == p && startsWithL cs ps

/-- Python `s.startswith(p)`. -/
def py_startswith (s p : String) : Bool := startsWithL s.data p.data

/-- The `for supported in _supported_releases` loop of `supported_release`
(versioning.py lines 50-52): return the first supported release whose
version is `>=` the input's, propagating a comparison `TypeError`. -/
def find_supported (rel : String) : List String → Except PyErr (Option String)
  | [] => .ok none
  | s :: rest =>
    match looseLe (basf2_version rel) (basf2_version s) with
    | .error e => .error e
    | .ok true => .ok (some s)
    | .ok false => find_supported rel rest

/-- The classification cascade of `supported_release` after the `pre` strip
(versioning.py lines 49-62): the `release-` loop, the `light-` lookup, and
the final fallback to the latest supported full release. -/
def classify_release (rel : String) : Except PyErr String :=
  match (if py_startswith rel "release-" then
           find_supported rel _supported_releases
         else .ok none) with
  | .error e => .error e
  | .ok (some s) => .ok s
  | .ok none =>
    if py_startswith rel "light-" then
      .ok (if _supported_light_releases.contains rel then rel
           else _supported_light_releases.getLastD "")
    else
      .ok (_supported_releases.getLastD "")

/-- `supported_release` (versioning.py lines 27-62). `None` yields the
latest supported full release; a `pre` prefix is stripped by the slice
`release[3:19]` before classification. -/
def supported_release (release : Option String) : Except PyErr String :=
  match release with
  | none => .ok (_supported_releases.getLastD "")
  | some rel =>
    classify_release
      (if py_startswith rel "pre" then String.mk ((rel.data.drop 3).take 16) else rel)

/-- An `EventMetaData` record as consumed by `recommended_global_tags_v2`:
a Python dict whose keys may be absent (`none` = key missing; a present
`release` key may still hold the value `None`). -/
structure EventMetaData where
  release : Option (Option String)
  isMC : Option Bool
  experimentLow : Option Int
  experimentHigh : Option Int
deriving DecidableEq

/-- Python dict lookup `d[k]`: raises `KeyError` when the key is missing. -/
def getKey {α : Type} (v : Option α) : Except PyErr α :=
  match v with
  | some a => .ok a
  | none => .error .keyError

/-- The result dictionary of `recommended_global_tags_v2`: the `release`
key is only present (`some`) when a different release is recommended. -/
structure Recommendation where
  tags : List String
  message : String
  release : Option String
deriving DecidableEq

/-- The `data_tags` dict of `recommended_global_tags_v2` (line 224) and its
`.get`: only the latest supported release has an entry. -/
def data_tags_get (r : String) : Option String :=
  if r == _supported_releases.getLastD "" then some "data_reprocessing_proc9" else none

/-- The `mc_tags` dict of `recommended_global_tags_v2` (line 229) and its
`.get`. -/
def mc_tags_get (r : String) : Option String :=
  if r == _supported_releases.getLastD "" then some "mc_production_mc12" else none

/-- The `analysis_tags` dict of `recommended_global_tags_v2` (line 234) and
its `.get`. -/
def analysis_tags_get (r : String) : Option String :=
  if r == _supported_releases.getLastD "" then some "analysis_tools_light-2012-minos" else none

/-- `recommended_global_tags_v2` (versioning.py lines 173-275). The body is
a faithful transcription: bucket the base tags by prefix, read the metadata
of the first input record (dict lookups can raise `KeyError`), resolve the
release (can raise `TypeError`), and assemble the ordered tag list and the
message in the source's order. -/
def recommended_global_tags_v2 (release : String) (base_tags : List String)
    (user_tags : Option (List String)) (metadata : Option (List EventMetaData)) :
    Except PyErr Recommendation :=
  let existing_master_tags :=
    base_tags.filter (fun t => py_startswith t "master_" || py_startswith t "release-")
  let existing_mc_tags := base_tags.filter (fun t => py_startswith t "mc_")
  let md0 : Option EventMetaData :=
    match metadata with
    | some (m :: _) => some m
    | _ => none
  match ((match md0 with
          | some m => getKey m.release
          | none => .ok none) : Except PyErr (Option String)) with
  | .error e => .error e
  | .ok _data_release =>
    match ((match md0 with
            | some m =>
              match getKey m.isMC with
              | .error e => .error e
              | .ok _is_mc =>
                match getKey m.experimentLow with
                | .error e => .error e
                | .ok lo =>
                  match getKey m.experimentHigh with
                  | .error e => .error e
                  | .ok hi => .ok (lo == hi && (lo == 0 || lo == 1002 || lo == 1003))
            | none => .ok false) : Except PyErr Bool) with
    | .error e => .error e
    | .ok is_run_independent_mc =>
      match supported_release (some release) with
      | .error e => .error e
      | .ok recommended_release =>
        let recommends :=
          (py_startswith release "release" || py_startswith release "light")
            && recommended_release != release
        let msg1 : String :=
          if recommends then
            "You are using " ++ release ++ ", but we recommend to use "
              ++ recommended_release ++ ".\n"
          else ""
        let rel_field : Option String :=
          if recommends then some recommended_release else none
        let data_tag := data_tags_get recommended_release
        let mc_tag := mc_tags_get recommended_release
        let analysis_tag := analysis_tags_get recommended_release
        let step :=
          match metadata with
          | some [] => (["B2BII"], "")
          | _ =>
            let t0 := "online" :: existing_master_tags
            let s1 :=
              if metadata.isNone || !is_run_independent_mc then
                match data_tag with
                | some t => (t :: t0, "")
                | none => (t0, "WARNING: There is no recommended data global tag.")
              else (t0, "")
            let s2 :=
              if metadata.isNone || !existing_mc_tags.isEmpty then
                match mc_tag with
                | some t => (t :: s1.1, s1.2)
                | none => (s1.1, s1.2 ++ "WARNING: There is no recommended mc global tag.")
              else s1
            s2
        let tags3 :=
          match analysis_tag with
          | some t => t :: step.1
          | none => step.1
        let msg3 : String :=
          match analysis_tag with
          | some _ => ""
          | none => "WARNING: There is no recommended analysis global tag."
        let msg4 : String :=
          if tags3 != base_tags then
            "The recommended tags differ from the base tags: "
              ++ String.intercalate " " base_tags ++ "\n"
              ++ "Use the default conditions configuration if you want to take the base tags.\n"
          else ""
        .ok { tags := tags3, message := msg1 ++ step.2 ++ msg3 ++ msg4,
              release := rel_field }

/-- `recommended_global_tags` (versioning.py lines 149-170): the legacy
wrapper that builds `[{'release': None}]` when `mc` is false and returns
only the `tags` field of the v2 result. -/
def recommended_global_tags (release : String) (mc : Bool) (analysis : Bool)
    (input_tags : List String) : Except PyErr (List String) :=
  let metadata : Option (List EventMetaData) :=
    if !mc then
      some [{ release := some none, isMC := none,
              experimentLow := none, experimentHigh := none }]
    else none
  match recommended_global_tags_v2 release input_tags none metadata with
  | .error e => .error e
  | .ok result => .ok result.tags


deriving instance DecidableEq for Except

/-! ## Helper lemmas -/

theorem latest_full_eq : _supported_releases.getLastD "" = "release-05-02-00" := rfl

theorem startsWithL_cons {cs : List Char} {p : Char} {ps : List Char}
    (h : startsWithL cs (p :: ps) = true) :
    ∃ rest, cs = p :: rest ∧ startsWithL rest ps = true := by
  cases cs with
  | nil => simp [startsWithL] at h
  | cons c cs' =>
    simp [startsWithL] at h
    exact ⟨cs', by rw [h.1], h.2⟩

theorem sw_ne_of_sw_not {p t s : String} (h : py_startswith t p = true)
    (hs : py_startswith s p = false) : t ≠ s := by
  intro e
  subst e
  rw [h] at hs
  exact Bool.noConfusion hs

theorem sw_release_not_pre {s : String} (h : py_startswith s "release-" = true) :
    py_startswith s "pre" = false := by
  unfold py_startswith at h ⊢
  rw [show "release-".data = ['r', 'e', 'l', 'e', 'a', 's', 'e', '-'] from rfl] at h
  obtain ⟨r1, e1, _⟩ := startsWithL_cons h
  rw [show "pre".data = ['p', 'r', 'e'] from rfl, e1]
  simp [startsWithL]

theorem sw_release_not_light {s : String} (h : py_startswith s "release-" = true) :
    py_startswith s "light-" = false := by
  unfold py_startswith at h ⊢
  rw [show "release-".data = ['r', 'e', 'l', 'e', 'a', 's', 'e', '-'] from rfl] at h
  obtain ⟨r1, e1, _⟩ := startsWithL_cons h
  rw [show "light-".data = ['l', 'i', 'g', 'h', 't', '-'] from rfl, e1]
  simp [startsWithL]

theorem sw_main_not_master {t : String} (h : py_startswith t "main_" = true) :
    py_startswith t "master_" = false := by
  unfold py_startswith at h ⊢
  rw [show "main_".data = ['m', 'a', 'i', 'n', '_'] from rfl] at h
  obtain ⟨r1, e1, h1⟩ := startsWithL_cons h
  obtain ⟨r2, e2, h2⟩ := startsWithL_cons h1
  obtain ⟨r3, e3, _⟩ := startsWithL_cons h2
  rw [show "master_".data = ['m', 'a', 's', 't', 'e', 'r', '_'] from rfl, e1, e2, e3]
  simp [startsWithL]

theorem sw_main_not_release {t : String} (h : py_startswith t "main_" = true) :
    py_startswith t "release-" = false := by
  unfold py_startswith at h ⊢
  rw [show "main_".data = ['m', 'a', 'i', 'n', '_'] from rfl] at h
  obtain ⟨r1, e1, _⟩ := startsWithL_cons h
  rw [show "release-".data = ['r', 'e', 'l', 'e', 'a', 's', 'e', '-'] from rfl, e1]
  simp [startsWithL]

theorem find_supported_mem : ∀ (l : List String) {rel s : String},
    find_supported rel l = .ok (some s) → s ∈ l := by
  intro l
  induction l with
  | nil => intro rel s h; simp [find_supported] at h
  | cons a l ih =>
    intro rel s h
    unfold find_supported at h
    rcases hle : looseLe (basf2_version rel) (basf2_version a) with e | b
    · rw [hle] at h; simp at h
    · rw [hle] at h
      cases b with
      | false => exact List.mem_cons_of_mem _ (ih h)
      | true => simp at h; rw [← h]; exact List.mem_cons_self _ _

theorem classify_release_mem {rel r : String} (h : classify_release rel = .ok r) :
    r ∈ _supported_releases ∨ r ∈ _supported_light_releases := by
  unfold classify_release at h
  by_cases hA : py_startswith rel "release-" = true
  · simp only [hA, if_true] at h
    rcases hf : find_supported rel _supported_releases with e | os
    · rw [hf] at h; simp at h
    · rw [hf] at h
      cases os with
      | some s =>
        simp at h
        exact Or.inl (h ▸ find_supported_mem _ hf)
      | none =>
        by_cases hL : py_startswith rel "light-" = true
        · simp only [hL, if_true] at h
          by_cases hc : _supported_light_releases.contains rel = true
          · simp only [hc, if_true] at h
            simp at h
            exact Or.inr (h ▸ List.elem_iff.mp hc)
          · simp only [Bool.not_eq_true] at hc
            simp only [hc, if_false] at h
            simp at h
            rw [← h]; right; decide
        · simp only [Bool.not_eq_true] at hL
          simp only [hL, if_false] at h
          simp at h
          rw [← h]; left; decide
  · simp only [Bool.not_eq_true] at hA
    simp only [hA, if_false] at h
    by_cases hL : py_startswith rel "light-" = true
    · simp only [hL, if_true] at h
      by_cases hc : _supported_light_releases.contains rel = true
      · simp only [hc, if_true] at h
        simp at h
        exact Or.inr (h ▸ List.elem_iff.mp hc)
      · simp only [Bool.not_eq_true] at hc
        simp only [hc, if_false] at h
        simp at h
        rw [← h]; right; decide
    · simp only [Bool.not_eq_true] at hL
      simp only [hL, if_false] at h
      simp at h
      rw [← h]; left; decide

theorem supported_release_mem {x : Option String} {r : String}
    (h : supported_release x = .ok r) :
    r ∈ _supported_releases ∨ r ∈ _supported_light_releases := by
  cases x with
  | none =>
    unfold supported_release at h
    simp at h
    rw [← h]; left; decide
  | some rel => exact classify_release_mem h

theorem supported_mem_fixed {r : String}
    (h : r ∈ _supported_releases ∨ r ∈ _supported_light_releases) :
    supported_release (some r) = .ok r := by
  rcases h with h | h <;>
    · simp [_supported_releases, _supported_light_releases] at h
      rcases h with h | h | h <;> subst h <;> decide

theorem bv_supported_1 : basf2_version "release-04-02-09" = [Sum.inl 4, Sum.inl 2, Sum.inl 9] := by
  decide

theorem bv_supported_2 : basf2_version "release-05-01-16" = [Sum.inl 5, Sum.inl 1, Sum.inl 16] := by
  decide

theorem bv_supported_3 : basf2_version "release-05-02-00" = [Sum.inl 5, Sum.inl 2, Sum.inl 0] := by
  decide

theorem pyListLt_inl_triple (a b c p q r : Nat) :
    pyListLt [Sum.inl a, Sum.inl b, Sum.inl c] [Sum.inl p, Sum.inl q, Sum.inl r]
      = .ok (decide (a < p ∨ a = p ∧ (b < q ∨ b = q ∧ c < r))) := by
  by_cases hap : a = p
  · subst hap
    by_cases hbq : b = q
    · subst hbq
      by_cases hcr : c = r
      · subst hcr
        simp [pyListLt, pyCompEq]
      · simp [pyListLt, pyCompEq, pyCompLt, hcr, decide_eq_decide] <;> omega
    · simp [pyListLt, pyCompEq, pyCompLt, hbq, decide_eq_decide] <;> omega
  · simp [pyListLt, pyCompEq, pyCompLt, hap, decide_eq_decide] <;> omega

theorem looseLe_inl_triple (a b c p q r : Nat) :
    looseLe [Sum.inl a, Sum.inl b, Sum.inl c] [Sum.inl p, Sum.inl q, Sum.inl r]
      = .ok (decide (a < p ∨ a = p ∧ (b < q ∨ b = q ∧ c ≤ r))) := by
  unfold looseLe
  rw [pyListLt_inl_triple]
  by_cases hap : a = p
  · subst hap
    by_cases hbq : b = q
    · subst hbq
      by_cases hcr : c = r
      · subst hcr
        simp [pyListEq, pyCompEq]
      · simp [pyListEq, pyCompEq, hcr, decide_eq_decide] <;> omega
    · simp [pyListEq, pyCompEq, hbq, decide_eq_decide] <;> omega
  · simp [pyListEq, pyCompEq, hap, decide_eq_decide] <;> omega

/-! ## Claim theorems -/

/-- C1, counterexample: the full release `release-06-00-00` has version
`6.0.0`, strictly greater (by the code's own comparison) than `5.2.0`, the
version of the newest supported full release, yet `supported_release` does
not return it unchanged: it falls back to `release-05-02-00`. -/
theorem c1_counterexample :
    pyListLt (basf2_version "release-05-02-00") (basf2_version "release-06-00-00") = .ok true
    ∧ supported_release (some "release-06-00-00") ≠ .ok "release-06-00-00"
    ∧ supported_release (some "release-06-00-00") = .ok "release-05-02-00" :=
  ⟨by decide, by decide, by decide⟩

/-- C5: `supported_release` is idempotent. Composing the resolver with
itself (in the error-propagating sense, since a malformed `release-` string
makes the Python-3 `LooseVersion` comparison raise `TypeError`) gives the
resolver back: whenever `supported_release x` returns a value `r`,
`supported_release r` returns `r` again. -/
theorem c5_idempotent (x : Option String) :
    Except.bind (supported_release x) (fun r => supported_release (some r))
      = supported_release x := by
  rcases h : supported_release x with e | r
  · rfl
  · show Except.bind (Except.ok r) _ = _
    have := supported_mem_fixed (supported_release_mem h)
    simpa [Except.bind] using this

/-- C6: every element of the supported full-release list is a fixed point
of the resolver. -/
theorem c6_supported_fixed_points :
    ∀ r ∈ _supported_releases, supported_release (some r) = .ok r := by
  intro r hr
  exact supported_mem_fixed (Or.inl hr)

/-- Witness for C6 at the first supported release. -/
theorem c6_witness : supported_release (some "release-04-02-09") = .ok "release-04-02-09" :=
  c6_supported_fixed_points "release-04-02-09" (by decide)

/-- C9: codomain invariant of the resolver. Every value that
`supported_release` returns is a member of the static supported
full-release list or of the static supported light-release list. -/
theorem c9_codomain (x : Option String) (r : String) (h : supported_release x = .ok r) :
    r ∈ _supported_releases ∨ r ∈ _supported_light_releases :=
  supported_release_mem h

/-- Witness for C9: the unrecognized string resolves into the tables. -/
theorem c9_witness :
    "release-05-02-00" ∈ _supported_releases
      ∨ "release-05-02-00" ∈ _supported_light_releases :=
  c9_codomain (some "completely-unrecognized") "release-05-02-00" (by decide)

/-- C10: the legacy wrapper `recommended_global_tags` with `mc = False`
builds the metadata `[{'release': None}]` whose record has no `isMC` key,
so the lookup `metadata[0]['isMC']` inside `recommended_global_tags_v2`
raises `KeyError` for every release string and every input tag list. -/
theorem c10_legacy_wrapper_keyerror (release : String) (analysis : Bool)
    (input_tags : List String) :
    recommended_global_tags release false analysis input_tags = .error .keyError := rfl

/-- C2, counterexample: with empty-list metadata (the B2BII legacy case)
and a release resolving to the newest supported one, the composed tag list
is not exactly `["B2BII"]`: the analysis tag is prepended to it, because
the analysis-tag step of `recommended_global_tags_v2` sits outside the
`metadata == []` branch. -/
theorem c2_counterexample :
    (recommended_global_tags_v2 "release-05-02-00" [] none (some [])).map Recommendation.tags
      = .ok ["analysis_tools_light-2012-minos", "B2BII"]
    ∧ ["analysis_tools_light-2012-minos", "B2BII"] ≠ ["B2BII"] :=
  ⟨by decide, by decide⟩

/-- C3, counterexample: a base tag with the `main_` prefix is not matched
by the `master_`/`release-` bucket filter of `recommended_global_tags_v2`,
so `"main_MC15"` disappears from the output tag list entirely. -/
theorem c3_counterexample :
    py_startswith "main_MC15" "main_" = true
    ∧ (recommended_global_tags_v2 "release-05-02-00" ["main_MC15"] none
        (some [{ release := some none, isMC := some true,
                 experimentLow := some 1, experimentHigh := some 2 }])).map Recommendation.tags
      = .ok ["analysis_tools_light-2012-minos", "data_reprocessing_proc9", "online"]
    ∧ "main_MC15" ∉ ["analysis_tools_light-2012-minos", "data_reprocessing_proc9", "online"] :=
  ⟨by decide, by decide, by decide⟩

/-- C4, counterexample: the `pre` strip of `supported_release` is the slice
`release[3:19]`, which keeps 16 characters (offsets 3 through 18), not 17.
On the 20-character input `prerelease-05-01-160` the code classifies the
16-character remainder `release-05-01-16` (an exact supported release),
while classifying the 17-character remainder `release-05-01-160` claimed by
the spec would round up to `release-05-02-00`. -/
theorem c4_counterexample :
    py_startswith "prerelease-05-01-160" "pre" = true
    ∧ supported_release (some "prerelease-05-01-160")
        ≠ classify_release (String.mk (("prerelease-05-01-160".data.drop 3).take 17))
    ∧ supported_release (some "prerelease-05-01-160") = .ok "release-05-01-16"
    ∧ classify_release (String.mk (("prerelease-05-01-160".data.drop 3).take 17))
        = .ok "release-05-02-00" :=
  ⟨by decide, by decide, by decide, by decide⟩

/-- C4, amended: for every input starting with `pre`, `supported_release`
classifies exactly the 16 characters at offsets 3 through 18 inclusive
(Python slice `[3:19]`) against the release tables. -/
theorem c4_pre_strip_16 (s : String) (h : py_startswith s "pre" = true) :
    supported_release (some s) = classify_release (String.mk ((s.data.drop 3).take 16)) := by
  simp only [supported_release, h, if_true]

/-- Witness for C4 amended, at a concrete `pre`-prefixed input. -/
theorem c4_witness :
    supported_release (some "prerelease-05-01-160")
      = classify_release (String.mk (("prerelease-05-01-160".data.drop 3).take 16)) :=
  c4_pre_strip_16 "prerelease-05-01-160" (by decide)

/-- C7, counterexample: `recommended_global_tags_v2` does not always
produce a tag list; the release string `release-y` makes the loose-version
comparison inside the resolver raise `TypeError` (Python 3 cannot order
`str` against `int`), which propagates out of the composition. -/
theorem c7_counterexample :
    recommended_global_tags_v2 "release-y" [] none none = .error .typeError := by decide

/-- C8, counterexample: composition can fail. On the `release-`-prefixed
but malformed string `release-x` the resolver's loose-version comparison
raises `TypeError` instead of resolving to the latest supported release, so
`recommended_global_tags_v2` returns an error rather than a result. -/
theorem c8_counterexample :
    recommended_global_tags_v2 "release-x" ["base"] none none = .error .typeError := by decide

theorem except_map_ok {α β : Type} (f : α → β) (x : α) :
    Except.map f (Except.ok x : Except PyErr α) = .ok (f x) := rfl

/-- C1, amended: a full release `release-XX-YY-ZZ` whose numeric version is
strictly greater (in the code's loose-version order) than `5.2.0`, the
version of the newest supported full release, is not returned unchanged:
the loop finds no supported release `>=` it and `supported_release` falls
back to the newest supported full release `release-05-02-00`. -/
theorem c1_next_release_falls_back (r : String) (a b c : Nat)
    (h1 : py_startswith r "release-" = true)
    (h2 : basf2_version r = [Sum.inl a, Sum.inl b, Sum.inl c])
    (h3 : pyListLt (basf2_version "release-05-02-00") (basf2_version r) = .ok true) :
    supported_release (some r) = .ok "release-05-02-00" := by
  have hpre := sw_release_not_pre h1
  have hlight := sw_release_not_light h1
  rw [bv_supported_3, h2, pyListLt_inl_triple] at h3
  simp only [Except.ok.injEq, decide_eq_true_eq] at h3
  have e1 : looseLe (basf2_version r) (basf2_version "release-04-02-09") = .ok false := by
    rw [h2, bv_supported_1, looseLe_inl_triple]
    simp only [Except.ok.injEq, decide_eq_false_iff_not]
    omega
  have e2 : looseLe (basf2_version r) (basf2_version "release-05-01-16") = .ok false := by
    rw [h2, bv_supported_2, looseLe_inl_triple]
    simp only [Except.ok.injEq, decide_eq_false_iff_not]
    omega
  have e3 : looseLe (basf2_version r) (basf2_version "release-05-02-00") = .ok false := by
    rw [h2, bv_supported_3, looseLe_inl_triple]
    simp only [Except.ok.injEq, decide_eq_false_iff_not]
    omega
  have hf : find_supported r _supported_releases = .ok none := by
    simp only [_supported_releases, find_supported, e1, e2, e3]
  simp only [supported_release, hpre, Bool.false_eq_true, if_false, classify_release, h1,
    if_true, hf, hlight, latest_full_eq]

/-- Witness for C1 amended at `release-06-00-00`. -/
theorem c1_witness : supported_release (some "release-06-00-00") = .ok "release-05-02-00" :=
  c1_next_release_falls_back "release-06-00-00" 6 0 0 (by decide) (by decide) (by decide)

/-- C2, amended: with empty-list metadata (the B2BII legacy case) the tag
list is `["B2BII"]` with the analysis tag prepended whenever the analysis
table defines one for the resolved release (it does exactly when the
release resolves to the newest supported one); no data, mc, online or
master tag is added, and the result is independent of the base tags. -/
theorem c2_b2bii_tags (rel : String) (base_tags : List String) (rr : String)
    (h : supported_release (some rel) = .ok rr) :
    (recommended_global_tags_v2 rel base_tags none (some [])).map Recommendation.tags
      = .ok (if rr == "release-05-02-00"
             then ["analysis_tools_light-2012-minos", "B2BII"] else ["B2BII"]) := by
  by_cases hrr : (rr == "release-05-02-00") = true
  · simp only [recommended_global_tags_v2, h, analysis_tags_get, latest_full_eq, hrr,
      if_true, except_map_ok]
  · simp only [Bool.not_eq_true] at hrr
    simp only [recommended_global_tags_v2, h, analysis_tags_get, latest_full_eq, hrr,
      if_false, except_map_ok]
    simp

/-- Witness for C2 amended at the newest supported release. -/
theorem c2_witness :
    (recommended_global_tags_v2 "release-05-02-00" ["x"] none (some [])).map Recommendation.tags
      = .ok (if "release-05-02-00" == "release-05-02-00"
             then ["analysis_tools_light-2012-minos", "B2BII"] else ["B2BII"]) :=
  c2_b2bii_tags "release-05-02-00" ["x"] "release-05-02-00" (by decide)

theorem main_tag_not_in {t : String} (hmain : py_startswith t "main_" = true)
    (pre : List String)
    (hpre : ∀ x ∈ pre, x = "analysis_tools_light-2012-minos" ∨ x = "mc_production_mc12"
        ∨ x = "data_reprocessing_proc9")
    (base_tags : List String) :
    t ∉ pre ++ "online" ::
        base_tags.filter (fun s => py_startswith s "master_" || py_startswith s "release-") := by
  intro hmem
  rcases List.mem_append.mp hmem with hp | ho
  · rcases hpre t hp with e | e | e <;> exact sw_ne_of_sw_not hmain (by decide) e
  · rcases List.mem_cons.mp ho with e | hf
    · exact sw_ne_of_sw_not hmain (by decide) e
    · have hpred := (List.mem_filter.mp hf).2
      rcases (Bool.or_eq_true _ _).mp hpred with hm | hr
      · rw [sw_main_not_master hmain] at hm
        exact Bool.noConfusion hm
      · rw [sw_main_not_release hmain] at hr
        exact Bool.noConfusion hr

theorem latest_full_opt_eq : _supported_releases.getLast?.getD "" = "release-05-02-00" := rfl

/-- C3, amended: base tags bucketed as existing master tags are those with
prefix `master_` or `release-` (not `main_`); with non-empty metadata they
are kept, in order, at the end of the composed tag list after `"online"`,
while every recommended tag sits in front of `"online"`; a base tag with
the `main_` prefix is not classified into any bucket and is absent from the
output. -/
theorem c3_master_tags_kept (rel : String) (base_tags : List String)
    (user_tags : Option (List String)) (rv : Option String) (bmc : Bool) (lo hi : Int)
    (ms : List EventMetaData) (rr : String)
    (h : supported_release (some rel) = .ok rr) :
    ∃ pre tgs,
      (recommended_global_tags_v2 rel base_tags user_tags
          (some ({ release := some rv, isMC := some bmc,
                   experimentLow := some lo, experimentHigh := some hi } :: ms))).map
          Recommendation.tags = .ok tgs
      ∧ tgs = pre ++ "online" ::
          base_tags.filter (fun t => py_startswith t "master_" || py_startswith t "release-")
      ∧ (∀ x ∈ pre, x = "analysis_tools_light-2012-minos" ∨ x = "mc_production_mc12"
          ∨ x = "data_reprocessing_proc9")
      ∧ ∀ t ∈ base_tags, py_startswith t "main_" = true → t ∉ tgs := by
  by_cases hrel : rr = "release-05-02-00"
  · subst hrel
    cases hiri : (lo == hi && (lo == 0 || lo == 1002 || lo == 1003)) with
    | true =>
      cases hmc : (base_tags.filter (fun t => py_startswith t "mc_")).isEmpty with
      | true =>
        refine ⟨["analysis_tools_light-2012-minos"], _, ?_, rfl, by decide,
          fun t ht hmain => main_tag_not_in hmain _ (by decide) base_tags⟩
        simp [recommended_global_tags_v2, getKey, h, hiri, hmc, except_map_ok,
          data_tags_get, mc_tags_get, analysis_tags_get, latest_full_eq, latest_full_opt_eq]
      | false =>
        refine ⟨["analysis_tools_light-2012-minos", "mc_production_mc12"], _, ?_, rfl,
          by decide, fun t ht hmain => main_tag_not_in hmain _ (by decide) base_tags⟩
        simp [recommended_global_tags_v2, getKey, h, hiri, hmc, except_map_ok,
          data_tags_get, mc_tags_get, analysis_tags_get, latest_full_eq, latest_full_opt_eq]
    | false =>
      cases hmc : (base_tags.filter (fun t => py_startswith t "mc_")).isEmpty with
      | true =>
        refine ⟨["analysis_tools_light-2012-minos", "data_reprocessing_proc9"], _, ?_, rfl,
          by decide, fun t ht hmain => main_tag_not_in hmain _ (by decide) base_tags⟩
        simp [recommended_global_tags_v2, getKey, h, hiri, hmc, except_map_ok,
          data_tags_get, mc_tags_get, analysis_tags_get, latest_full_eq, latest_full_opt_eq]
      | false =>
        refine ⟨["analysis_tools_light-2012-minos", "mc_production_mc12",
            "data_reprocessing_proc9"], _, ?_, rfl,
          by decide, fun t ht hmain => main_tag_not_in hmain _ (by decide) base_tags⟩
        simp [recommended_global_tags_v2, getKey, h, hiri, hmc, except_map_ok,
          data_tags_get, mc_tags_get, analysis_tags_get, latest_full_eq, latest_full_opt_eq]
  · cases hiri : (lo == hi && (lo == 0 || lo == 1002 || lo == 1003)) <;>
      cases hmc : (base_tags.filter (fun t => py_startswith t "mc_")).isEmpty <;>
      · refine ⟨[], _, ?_, rfl, by decide,
          fun t ht hmain => main_tag_not_in hmain _ (by decide) base_tags⟩
        simp [recommended_global_tags_v2, getKey, h, hrel, hiri, hmc, except_map_ok,
          data_tags_get, mc_tags_get, analysis_tags_get, latest_full_eq, latest_full_opt_eq]

/-- Witness for C3 amended at concrete inputs with a `master_` and a
`main_` base tag. -/
theorem c3_witness :
    ∃ pre tgs,
      (recommended_global_tags_v2 "release-05-02-00" ["master_2020", "main_MC15"] none
          (some ({ release := some none, isMC := some true,
                   experimentLow := some 7, experimentHigh := some 9 } :: []))).map
          Recommendation.tags = .ok tgs
      ∧ tgs = pre ++ "online" ::
          ["master_2020", "main_MC15"].filter
            (fun t => py_startswith t "master_" || py_startswith t "release-")
      ∧ (∀ x ∈ pre, x = "analysis_tools_light-2012-minos" ∨ x = "mc_production_mc12"
          ∨ x = "data_reprocessing_proc9")
      ∧ ∀ t ∈ ["master_2020", "main_MC15"], py_startswith t "main_" = true → t ∉ tgs :=
  c3_master_tags_kept "release-05-02-00" ["master_2020", "main_MC15"] none none true 7 9
    [] "release-05-02-00" (by decide)

/-- C7, amended: whenever `recommended_global_tags_v2` with empty base tags
and no metadata (event generation) does return a tag list, every
recommended per-category tag that the tables define for the resolved
release (analysis, mc, data) appears in it ahead of `"online"`. -/
theorem c7_recommended_before_online (rel rr : String) (tgs : List String)
    (h : supported_release (some rel) = .ok rr)
    (htags : (recommended_global_tags_v2 rel [] none none).map Recommendation.tags = .ok tgs)
    (t : String)
    (ht : data_tags_get rr = some t ∨ mc_tags_get rr = some t ∨ analysis_tags_get rr = some t) :
    t ∈ tgs ∧ List.indexOf t tgs < List.indexOf "online" tgs := by
  by_cases hrel : rr = "release-05-02-00"
  · subst hrel
    have hcomp : (recommended_global_tags_v2 rel [] none none).map Recommendation.tags
        = .ok ["analysis_tools_light-2012-minos", "mc_production_mc12",
               "data_reprocessing_proc9", "online"] := by
      simp [recommended_global_tags_v2, getKey, h, except_map_ok,
        data_tags_get, mc_tags_get, analysis_tags_get, latest_full_eq, latest_full_opt_eq]
    rw [hcomp] at htags
    simp only [Except.ok.injEq] at htags
    subst htags
    rcases ht with e | e | e <;>
      · simp [data_tags_get, mc_tags_get, analysis_tags_get, latest_full_eq,
          latest_full_opt_eq] at e
        subst e
        decide
  · rcases ht with e | e | e <;>
      simp [data_tags_get, mc_tags_get, analysis_tags_get, latest_full_eq,
        latest_full_opt_eq, hrel] at e

/-- Witness for C7 amended: the data tag sits ahead of `online` for the
newest supported release. -/
theorem c7_witness :
    "data_reprocessing_proc9"
        ∈ ["analysis_tools_light-2012-minos", "mc_production_mc12",
           "data_reprocessing_proc9", "online"]
    ∧ List.indexOf "data_reprocessing_proc9"
          ["analysis_tools_light-2012-minos", "mc_production_mc12",
           "data_reprocessing_proc9", "online"]
        < List.indexOf "online"
          ["analysis_tools_light-2012-minos", "mc_production_mc12",
           "data_reprocessing_proc9", "online"] :=
  c7_recommended_before_online "release-05-02-00" "release-05-02-00"
    ["analysis_tools_light-2012-minos", "mc_production_mc12",
     "data_reprocessing_proc9", "online"]
    (by decide) (by decide) "data_reprocessing_proc9" (Or.inl (by decide))

/-- The metadata shapes documented for the composer: no input (`None`), the
B2BII legacy empty list, or a first record carrying the `release`, `isMC`,
`experimentLow` and `experimentHigh` keys. -/
def MetaShape (md : Option (List EventMetaData)) : Prop :=
  md = none ∨ md = some [] ∨
    ∃ m ms, md = some (m :: ms) ∧ m.release.isSome ∧ m.isMC.isSome
      ∧ m.experimentLow.isSome ∧ m.experimentHigh.isSome

/-- C8, amended: composition is total whenever the resolver succeeds on the
release string and the metadata has one of the documented shapes; when the
per-category tables have no entry for the resolved release the tags are
omitted and a WARNING sentence is appended to the message instead of an
error; and a string with none of the recognized prefixes resolves to the
latest supported full release. (As stated the claim fails: a malformed
`release-`-prefixed string makes the resolver raise `TypeError`.) -/
theorem c8_composition_total :
    (∀ rel base_tags user_tags metadata rr,
        supported_release (some rel) = .ok rr → MetaShape metadata →
        ∃ res, recommended_global_tags_v2 rel base_tags user_tags metadata = .ok res)
    ∧ (∀ rel base_tags user_tags rr,
        supported_release (some rel) = .ok rr → analysis_tags_get rr = none →
        (recommended_global_tags_v2 rel base_tags user_tags none).map Recommendation.tags
            = .ok ("online" :: base_tags.filter
                (fun t => py_startswith t "master_" || py_startswith t "release-"))
          ∧ ∃ p q, (recommended_global_tags_v2 rel base_tags user_tags none).map
              Recommendation.message
            = .ok (p ++ ("WARNING: There is no recommended analysis global tag." ++ q)))
    ∧ (∀ rel, py_startswith rel "pre" = false → py_startswith rel "release-" = false →
        py_startswith rel "light-" = false →
        supported_release (some rel) = .ok "release-05-02-00") := by
  refine ⟨?_, ?_, ?_⟩
  · intro rel base_tags user_tags metadata rr h hshape
    rcases hshape with e | e | ⟨m, ms, e, h1, h2, h3, h4⟩ <;> subst e
    · simp only [recommended_global_tags_v2, getKey, h]
      exact ⟨_, rfl⟩
    · simp only [recommended_global_tags_v2, getKey, h]
      exact ⟨_, rfl⟩
    · obtain ⟨rv, hrv⟩ := Option.isSome_iff_exists.mp h1
      obtain ⟨bmc, hb⟩ := Option.isSome_iff_exists.mp h2
      obtain ⟨lo, hlo⟩ := Option.isSome_iff_exists.mp h3
      obtain ⟨hi, hhi⟩ := Option.isSome_iff_exists.mp h4
      simp only [recommended_global_tags_v2, getKey, h, hrv, hb, hlo, hhi]
      exact ⟨_, rfl⟩
  · intro rel base_tags user_tags rr h hana
    have hrel : ¬ (rr = "release-05-02-00") := by
      intro e
      rw [e] at hana
      simp [analysis_tags_get, latest_full_eq, latest_full_opt_eq] at hana
    constructor
    · simp [recommended_global_tags_v2, getKey, h, except_map_ok,
        data_tags_get, mc_tags_get, analysis_tags_get, latest_full_eq,
        latest_full_opt_eq, hrel]
    · apply Exists.intro
      apply Exists.intro
      simp [recommended_global_tags_v2, getKey, h, except_map_ok,
        data_tags_get, mc_tags_get, analysis_tags_get, latest_full_eq,
        latest_full_opt_eq, hrel]
      rw [String.append_assoc]
  · intro rel h1 h2 h3
    simp only [supported_release, h1, Bool.false_eq_true, if_false, classify_release,
      h2, h3, latest_full_eq]

/-- Witness for C8 amended: composition succeeds for an unrecognized
release string, which itself resolves to the latest supported release. -/
theorem c8_witness :
    (∃ res, recommended_global_tags_v2 "unknown-build" [] none none = .ok res)
    ∧ supported_release (some "unknown-build") = .ok "release-05-02-00" :=
  ⟨c8_composition_total.1 "unknown-build" [] none none "release-05-02-00"
      (by decide) (Or.inl rfl),
   c8_composition_total.2.2 "unknown-build" (by decide) (by decide) (by decide)⟩
